import Mathlib

/-!
Shallow embedding of the MUNI L-Taraval arrival display core
(`examples/muni_l_taraval_live.py`): pixel font, arrival classification,
animation engine, reconciler/scheduler loop, data sources and drawing
routines, together with theorems checking the specification's claims.
-/

set_option maxRecDepth 4000

/-- RGB color triple, as the Python 3-tuples of ints. -/
abbrev RGB := Nat × Nat × Nat

/-- One arrival entry.  The Python code passes around dicts whose key sets
differ between sources (live parse: minutes/destination/vehicle_id/line/
direction; demo: destination/minutes/vehicle/time; test: minutes/destination).
`Option` fields model absent keys so that structural equality mirrors Python
dict equality. -/
structure Arrival where
  minutes : Int
  destination : String
  vehicle_id : Option String
  line : Option String
  direction : Option String
  vehicle : Option String
  time : Option String
deriving DecidableEq, Repr

/-- Animation phase, `self.animation_phase` ("entering" / "exiting"). -/
inductive Phase where
  | entering
  | exiting
deriving DecidableEq, Repr

/-- The `font_patterns` dict of `create_text_pixels`: 7-row bitmaps,
variable width (dash and space are 2 columns, the rest 5). -/
def font_patterns : List (Char × List (List Nat)) :=
  [ ('L', [[1,0,0,0,0],[1,0,0,0,0],[1,0,0,0,0],[1,0,0,0,0],[1,0,0,0,0],[1,0,0,0,0],[1,1,1,1,1]]),
    ('T', [[1,1,1,1,1],[0,0,1,0,0],[0,0,1,0,0],[0,0,1,0,0],[0,0,1,0,0],[0,0,1,0,0],[0,0,1,0,0]]),
    ('A', [[0,1,1,1,0],[1,0,0,0,1],[1,0,0,0,1],[1,1,1,1,1],[1,0,0,0,1],[1,0,0,0,1],[1,0,0,0,1]]),
    ('R', [[1,1,1,1,0],[1,0,0,0,1],[1,0,0,0,1],[1,1,1,1,0],[1,0,1,0,0],[1,0,0,1,0],[1,0,0,0,1]]),
    ('V', [[1,0,0,0,1],[1,0,0,0,1],[1,0,0,0,1],[1,0,0,0,1],[0,1,0,1,0],[0,1,0,1,0],[0,0,1,0,0]]),
    ('E', [[1,1,1,1,1],[1,0,0,0,0],[1,0,0,0,0],[1,1,1,1,0],[1,0,0,0,0],[1,0,0,0,0],[1,1,1,1,1]]),
    ('M', [[1,0,0,0,1],[1,1,0,1,1],[1,0,1,0,1],[1,0,0,0,1],[1,0,0,0,1],[1,0,0,0,1],[1,0,0,0,1]]),
    ('I', [[1,1,1,1,1],[0,0,1,0,0],[0,0,1,0,0],[0,0,1,0,0],[0,0,1,0,0],[0,0,1,0,0],[1,1,1,1,1]]),
    ('N', [[1,0,0,0,1],[1,1,0,0,1],[1,0,1,0,1],[1,0,0,1,1],[1,0,0,0,1],[1,0,0,0,1],[1,0,0,0,1]]),
    ('U', [[1,0,0,0,1],[1,0,0,0,1],[1,0,0,0,1],[1,0,0,0,1],[1,0,0,0,1],[1,0,0,0,1],[0,1,1,1,0]]),
    ('W', [[1,0,0,0,1],[1,0,0,0,1],[1,0,0,0,1],[1,0,1,0,1],[1,0,1,0,1],[1,1,0,1,1],[1,0,0,0,1]]),
    ('O', [[0,1,1,1,0],[1,0,0,0,1],[1,0,0,0,1],[1,0,0,0,1],[1,0,0,0,1],[1,0,0,0,1],[0,1,1,1,0]]),
    ('C', [[0,1,1,1,0],[1,0,0,0,1],[1,0,0,0,0],[1,0,0,0,0],[1,0,0,0,0],[1,0,0,0,1],[0,1,1,1,0]]),
    ('D', [[1,1,1,1,0],[1,0,0,0,1],[1,0,0,0,1],[1,0,0,0,1],[1,0,0,0,1],[1,0,0,0,1],[1,1,1,1,0]]),
    ('P', [[1,1,1,1,0],[1,0,0,0,1],[1,0,0,0,1],[1,1,1,1,0],[1,0,0,0,0],[1,0,0,0,0],[1,0,0,0,0]]),
    ('0', [[0,1,1,1,0],[1,0,0,0,1],[1,0,0,1,1],[1,0,1,0,1],[1,1,0,0,1],[1,0,0,0,1],[0,1,1,1,0]]),
    ('1', [[0,0,1,0,0],[0,1,1,0,0],[0,0,1,0,0],[0,0,1,0,0],[0,0,1,0,0],[0,0,1,0,0],[0,1,1,1,0]]),
    ('2', [[0,1,1,1,0],[1,0,0,0,1],[0,0,0,0,1],[0,0,0,1,0],[0,0,1,0,0],[0,1,0,0,0],[1,1,1,1,1]]),
    ('3', [[0,1,1,1,0],[1,0,0,0,1],[0,0,0,0,1],[0,0,1,1,0],[0,0,0,0,1],[1,0,0,0,1],[0,1,1,1,0]]),
    ('4', [[0,0,0,1,0],[0,0,1,1,0],[0,1,0,1,0],[1,0,0,1,0],[1,1,1,1,1],[0,0,0,1,0],[0,0,0,1,0]]),
    ('5', [[1,1,1,1,1],[1,0,0,0,0],[1,1,1,1,0],[0,0,0,0,1],[0,0,0,0,1],[1,0,0,0,1],[0,1,1,1,0]]),
    ('6', [[0,1,1,1,0],[1,0,0,0,0],[1,0,0,0,0],[1,1,1,1,0],[1,0,0,0,1],[1,0,0,0,1],[0,1,1,1,0]]),
    ('7', [[1,1,1,1,1],[0,0,0,0,1],[0,0,0,1,0],[0,0,1,0,0],[0,1,0,0,0],[0,1,0,0,0],[0,1,0,0,0]]),
    ('8', [[0,1,1,1,0],[1,0,0,0,1],[1,0,0,0,1],[0,1,1,1,0],[1,0,0,0,1],[1,0,0,0,1],[0,1,1,1,0]]),
    ('9', [[0,1,1,1,0],[1,0,0,0,1],[1,0,0,0,1],[0,1,1,1,1],[0,0,0,0,1],[0,0,0,0,1],[0,1,1,1,0]]),
    ('-', [[0,0],[0,0],[0,0],[1,1],[0,0],[0,0],[0,0]]),
    (':', [[0,0,0,0,0],[0,0,1,0,0],[0,0,0,0,0],[0,0,0,0,0],[0,0,1,0,0],[0,0,0,0,0],[0,0,0,0,0]]),
    (' ', [[0,0],[0,0],[0,0],[0,0],[0,0],[0,0],[0,0]]) ]

/-- The space glyph, used for every character missing from the table. -/
def space_pattern : List (List Nat) :=
  [[0,0],[0,0],[0,0],[0,0],[0,0],[0,0],[0,0]]

/-- Glyph lookup with the space fallback of `create_text_pixels`. -/
def lookup_pattern (c : Char) : List (List Nat) :=
  match font_patterns.lookup c with
  | some p => p
  | none => space_pattern

/-- `create_text_pixels(text)`: uppercase, then map each character to its
glyph (unknown characters become the space glyph).  Uppercasing is applied
per character, which is what `str.upper()` does on the ASCII texts involved. -/
def create_text_pixels (text : String) : List (List (List Nat)) :=
  text.toList.map (fun c => lookup_pattern c.toUpper)

/-- `len(char_pixels[0])`: the width of one glyph, taken from its first row. -/
def charWidth (p : List (List Nat)) : Nat :=
  (p.headD []).length

/-- `get_text_width(text_pixels)`: glyph widths plus one column between
consecutive glyphs, no trailing column. -/
def get_text_width : List (List (List Nat)) → Nat
  | [] => 0
  | [p] => charWidth p
  | p :: rest => charWidth p + 1 + get_text_width rest

/-- `get_arrival_text_and_color`, as a pure function of the arrival list. -/
def get_arrival_text_and_color (current_arrivals : List Arrival) : String × RGB :=
  match current_arrivals with
  | [] => ("NO DATA", (255, 255, 0))
  | a :: _ =>
    let minutes := a.minutes
    if minutes = 0 then ("NOW", (255, 0, 0))
    else if minutes = 1 then ("1 MIN", (255, 0, 0))
    else if minutes ≤ 5 then (toString minutes ++ " MIN", (255, 128, 0))
    else (toString minutes ++ " MIN", (0, 255, 0))

/-- `calculate_animation_frames(old_text_length, new_text_length)`. -/
def calculate_animation_frames (old_text_length new_text_length : Nat) : Nat :=
  if old_text_length = 0 then
    let new_total_length := 16 + 2 + new_text_length
    let new_start_x := 64 + new_total_length
    let distance := new_start_x - 1
    distance * 1
  else
    let old_text_end_x := 1 + 18 + old_text_length
    let old_exit_distance := old_text_end_x - 0
    let new_total_length := 16 + 2 + new_text_length
    let new_start_x := 64 + new_total_length
    let new_enter_distance := new_start_x - 1
    let max_distance := max old_exit_distance new_enter_distance
    max_distance * 1 + 1

/-- The mutable display/animation/reconciler state owned by the single loop
(`MuniLTaravalDisplay` instance fields that the core loop reads or writes). -/
structure DState where
  animation_active : Bool
  animation_frame : Nat
  animation_total_frames : Nat
  animation_phase : Phase
  current_arrivals : List Arrival
  old_arrival_text : String
  old_arrival_color : RGB
  display_arrival_text : String
  display_arrival_color : RGB
  last_data_fetch_time : Int
  next_update_time : Option Int
  update_interval : Int
deriving DecidableEq, Repr

/-- The state set up by `__init__` (before any loop iteration), with the
configured update interval. -/
def initState (interval : Int) : DState :=
  { animation_active := false
    animation_frame := 0
    animation_total_frames := 120
    animation_phase := Phase.entering
    current_arrivals := []
    old_arrival_text := ""
    old_arrival_color := (255, 255, 0)
    display_arrival_text := "NO DATA"
    display_arrival_color := (255, 255, 0)
    last_data_fetch_time := 0
    next_update_time := none
    update_interval := interval }

/-- `start_update_animation(is_initial_load)`: measure the old and new texts,
compute the frame budget, arm the animation and pick the phase. -/
def startUpdateAnimation (s : DState) (is_initial_load : Bool) : DState :=
  let old_text_length :=
    if s.old_arrival_text = "" then 0
    else get_text_width (create_text_pixels s.old_arrival_text)
  let new_text_length := get_text_width (create_text_pixels s.display_arrival_text)
  let s1 := { s with
    animation_total_frames := calculate_animation_frames old_text_length new_text_length
    animation_active := true
    animation_frame := 0 }
  if is_initial_load = false ∧ s.old_arrival_text ≠ "" then
    { s1 with animation_phase := Phase.exiting }
  else
    { s1 with animation_phase := Phase.entering }

/-- The state effect of the tail of `draw_animated_train_update`: increment
the frame; on `frame >= total_frames` drop to idle, reset the frame and phase,
and (when arrivals are present) commit the displayed text/color into the
old-text slots for the next exit animation. -/
def advanceAnimation (s : DState) : DState :=
  let f := s.animation_frame + 1
  if s.animation_total_frames ≤ f then
    let s1 := { s with
      animation_active := false
      animation_frame := 0
      animation_phase := Phase.entering }
    if s.current_arrivals.isEmpty then s1
    else { s1 with
      old_arrival_text := s.display_arrival_text
      old_arrival_color := s.display_arrival_color }
  else
    { s with animation_frame := f }

/-- The `should_fetch_data` condition of `display_arrivals`. -/
def should_fetch (s : DState) (now : Int) : Bool :=
  !s.animation_active &&
    (s.last_data_fetch_time == 0 || decide (s.update_interval ≤ now - s.last_data_fetch_time))

/-- The data-accepting block of `display_arrivals`: store the poll result and
fetch time, refresh the persistent display text/color, and schedule the next
update. -/
def fetch_phase (s : DState) (now : Int) (poll : List Arrival) : DState :=
  let s1 := { s with current_arrivals := poll, last_data_fetch_time := now }
  let s2 :=
    if poll.isEmpty then
      { s1 with display_arrival_text := "NO DATA", display_arrival_color := (255, 255, 0) }
    else
      { s1 with
        display_arrival_text := (get_arrival_text_and_color poll).1
        display_arrival_color := (get_arrival_text_and_color poll).2 }
  { s2 with next_update_time := some (now + s.update_interval) }

/-- The canvas block of `display_arrivals`: when animating, one call to
`draw_animated_train_update` advances the animation; otherwise the static
render changes no state. -/
def render_phase (s : DState) : DState :=
  if s.animation_active then advanceAnimation s else s

/-- Result of one `display_arrivals` call: the successor state plus the
decision flags of that iteration (`polled`: a fetch was issued; `changed` /
`initial`: the reconciler flags `is_new_data` / `is_initial_load`; `armed`:
`start_update_animation` was called). -/
structure StepResult where
  state : DState
  polled : Bool
  changed : Bool
  initial : Bool
  armed : Bool
deriving DecidableEq, Repr

/-- One iteration of the loop body (`display_arrivals`), with the poll result
that the selected source would return supplied as an input. -/
def loop_step (s : DState) (now : Int) (poll : List Arrival) : StepResult :=
  if should_fetch s now then
    let is_new := decide (poll ≠ s.current_arrivals)
    let is_init := s.current_arrivals.isEmpty
    let s1 := fetch_phase s now poll
    if poll.isEmpty then
      { state := s1, polled := true, changed := is_new, initial := is_init, armed := false }
    else
      let armNow := (is_new || is_init) && !s1.animation_active
      let s2 := if armNow then startUpdateAnimation s1 is_init else s1
      { state := render_phase s2, polled := true, changed := is_new, initial := is_init,
        armed := armNow }
  else
    if s.current_arrivals.isEmpty then
      { state := s, polled := false, changed := false, initial := false, armed := false }
    else
      { state := render_phase s, polled := false, changed := false, initial := false,
        armed := false }

/-- States reachable by the `run_display` loop from a freshly constructed
display, under arbitrary clock readings and poll results. -/
inductive Reachable : DState → Prop where
  | init (interval : Int) : Reachable (initState interval)
  | step {s : DState} (now : Int) (poll : List Arrival) :
      Reachable s → Reachable (loop_step s now poll).state

/-- Record of one issued poll, for stating reconciler properties over runs. -/
structure PollRec where
  arrivals : List Arrival
  changed : Bool
  initial : Bool
deriving DecidableEq, Repr

/-- Run the loop over a list of (clock reading, poll result) inputs,
collecting a record for every iteration that actually issued a poll. -/
def runTraceR : DState → List (Int × List Arrival) → DState × List PollRec
  | s, [] => (s, [])
  | s, (now, poll) :: rest =>
    let r := loop_step s now poll
    let res := runTraceR r.state rest
    if r.polled then
      (res.1, { arrivals := poll, changed := r.changed, initial := r.initial } :: res.2)
    else
      res

/-- The fractional animation progress `frame / total_frames` computed by
`draw_animated_train_update`. -/
def progress (s : DState) : ℚ :=
  (s.animation_frame : ℚ) / (s.animation_total_frames : ℚ)

/-- `k` successive animation-advance (draw) calls. -/
def iterateAdvance : Nat → DState → DState
  | 0, s => s
  | k + 1, s => advanceAnimation (iterateAdvance k s)

/-- `int(x)` for the nonnegative-denominator division by 60 in both parsers:
Python `int()` truncates toward zero. -/
def intTrunc60 (d : Int) : Int :=
  if 0 ≤ d then d / 60 else -((-d) / 60)

/-- Zero-padded two-digit decimal, for `%H`/`%M`. -/
def pad2 (n : Nat) : String :=
  if n < 10 then "0" ++ toString n else toString n

/-- `strftime('%H:%M')` on an epoch-seconds clock. -/
def formatHM (t : Int) : String :=
  pad2 ((t / 3600) % 24).toNat ++ ":" ++ pad2 (((t % 3600) / 60)).toNat

/-- `get_demo_data()`: three synthesized arrivals 3, 8 and 15 minutes out,
with direction-specific destinations. -/
def get_demo_data (inbound : Bool) (now : Int) : List Arrival :=
  let destinations : List String :=
    if inbound then ["Embarcadero", "Montgomery", "Powell", "Civic Center"]
    else ["SF Zoo", "Taraval/46th", "Sunset Blvd"]
  [ { minutes := 3, destination := destinations.headD ""
      vehicle_id := none, line := none, direction := none
      vehicle := some "L1234", time := some (formatHM (now + 3 * 60)) },
    { minutes := 8
      destination := if 1 < destinations.length then destinations.getD 1 "" else destinations.headD ""
      vehicle_id := none, line := none, direction := none
      vehicle := some "L5678", time := some (formatHM (now + 8 * 60)) },
    { minutes := 15, destination := destinations.headD ""
      vehicle_id := none, line := none, direction := none
      vehicle := some "L9012", time := some (formatHM (now + 15 * 60)) } ]

/-- An ISO-8601 arrival-time string as it matters to the parsers: either it
parses to an epoch-seconds instant or `fromisoformat` raises on it. -/
inductive TimeStr where
  | valid (epoch : Int)
  | malformed
deriving DecidableEq, Repr

/-- `MonitoredCall`: the two arrival-time fields (a `none` field models a
missing key). -/
structure MonitoredCall where
  expectedArrivalTime : Option TimeStr
  aimedArrivalTime : Option TimeStr
deriving DecidableEq, Repr

/-- `MonitoredVehicleJourney` of one stop visit. -/
structure MonitoredVehicleJourney where
  lineRef : String
  directionRef : String
  destinationName : Option String
  vehicleRef : Option String
  monitoredCall : MonitoredCall
deriving DecidableEq, Repr

/-- One `MonitoredStopVisit` entry. -/
structure MonitoredStopVisit where
  monitoredVehicleJourney : MonitoredVehicleJourney
deriving DecidableEq, Repr

/-- One `StopMonitoringDelivery` entry. -/
structure Delivery where
  monitoredStopVisit : List MonitoredStopVisit
deriving DecidableEq, Repr

/-- A decoded 511.org response document
(`ServiceDelivery.StopMonitoringDelivery[*]`). -/
structure Doc511 where
  stopMonitoringDelivery : List Delivery
deriving DecidableEq, Repr

/-- Stable insertion into an ascending-by-minutes list (a new element goes
after existing equals). -/
def insertSorted (a : Arrival) : List Arrival → List Arrival
  | [] => [a]
  | b :: t => if b.minutes ≤ a.minutes then b :: insertSorted a t else a :: b :: t

/-- `arrivals.sort(key=lambda x: x['minutes'])`: Python's stable ascending
sort, modeled by stable left-fold insertion. -/
def sortByMinutes (l : List Arrival) : List Arrival :=
  l.foldl (fun acc a => insertSorted a acc) []

/-- `parse_511_response(data)`: keep only visits matching the configured line
and direction, take `ExpectedArrivalTime` falling back to `AimedArrivalTime`,
skip entries whose timestamp fails to parse, keep only nonnegative
minutes-until, and sort ascending by minutes. -/
def parse_511_response (lineId : String) (inbound : Bool) (now : Int) (doc : Doc511) :
    List Arrival :=
  match doc.stopMonitoringDelivery with
  | [] => []
  | delivery :: _ =>
    let apiDir := if inbound then "IB" else "OB"
    let arrivals := delivery.monitoredStopVisit.filterMap (fun visit =>
      let j := visit.monitoredVehicleJourney
      if j.lineRef = lineId ∧ j.directionRef = apiDir then
        let arrival_time_str :=
          match j.monitoredCall.expectedArrivalTime with
          | some t => some t
          | none => j.monitoredCall.aimedArrivalTime
        match arrival_time_str with
        | none => none
        | some TimeStr.malformed => none
        | some (TimeStr.valid t) =>
          let minutes_until := intTrunc60 (t - now)
          if 0 ≤ minutes_until then
            some { minutes := minutes_until
                   destination := j.destinationName.getD "Unknown"
                   vehicle_id := some (j.vehicleRef.getD "")
                   line := some j.lineRef
                   direction := some j.directionRef
                   vehicle := none, time := none }
          else none
      else none)
    sortByMinutes arrivals

/-- The visit loop of `get_test_data`: every visit with an
`ExpectedArrivalTime` key contributes `(max 0 minutes, destination)`; a
malformed timestamp raises, aborting the whole parse (`none`). -/
def parse_test_visits (now : Int) : List MonitoredStopVisit → Option (List Arrival)
  | [] => some []
  | visit :: rest =>
    let j := visit.monitoredVehicleJourney
    match j.monitoredCall.expectedArrivalTime with
    | none => parse_test_visits now rest
    | some TimeStr.malformed => none
    | some (TimeStr.valid t) =>
      match parse_test_visits now rest with
      | none => none
      | some tail =>
        some ({ minutes := max 0 (intTrunc60 (t - now))
                destination := j.destinationName.getD "Unknown"
                vehicle_id := none, line := none, direction := none
                vehicle := none, time := none } :: tail)

/-- `get_test_data`'s conversion of one fixture snapshot, with the
surrounding `except Exception: return []`. -/
def get_test_entry_arrivals (now : Int) (doc : Doc511) : List Arrival :=
  match doc.stopMonitoringDelivery with
  | [] => []
  | delivery :: _ => (parse_test_visits now delivery.monitoredStopVisit).getD []

/-- `get_test_data()`: take the entry at the current index, advance the index
round-robin, and parse the entry. -/
def get_test_data (test_data : List Doc511) (idx : Nat) (now : Int) : List Arrival × Nat :=
  if test_data.isEmpty then ([], idx)
  else
    let entry := test_data.getD idx { stopMonitoringDelivery := [] }
    (get_test_entry_arrivals now entry, (idx + 1) % test_data.length)

/-- What one call to `requests.get` + `json.loads` delivers to
`get_live_data`: a decoded document, or one of the exceptions the
`try` block can see. -/
inductive NetResult where
  | raiseTimeout
  | raiseRequestError (msg : String)
  | invalidJSON (msg : String)
  | otherError (msg : String)
  | ok (doc : Doc511)
deriving DecidableEq, Repr

/-- `NetResult` classifier: everything except a decoded document is a
failure. -/
def NetResult.isFailure : NetResult → Bool
  | .ok _ => false
  | _ => true

/-- The Python exceptions distinguished by `get_live_data`'s handlers. -/
inductive PyExn where
  | timeout
  | requestException (msg : String)
  | jsonDecodeError (msg : String)
  | exception (msg : String)
deriving DecidableEq, Repr

/-- The body of `get_live_data`'s `try` block: raises are surfaced as
`Except.error`; an empty parse already falls back to demo data inside the
`try`. -/
def get_live_data_body (resp : NetResult) (lineId : String) (inbound : Bool) (now : Int) :
    Except PyExn (List Arrival) :=
  match resp with
  | .raiseTimeout => .error .timeout
  | .raiseRequestError m => .error (.requestException m)
  | .invalidJSON m => .error (.jsonDecodeError m)
  | .otherError m => .error (.exception m)
  | .ok doc =>
    let arrivals := parse_511_response lineId inbound now doc
    if arrivals.isEmpty then .ok (get_demo_data inbound now) else .ok arrivals

/-- `get_live_data()`: the no-key early return plus the `try`/`except`
ladder; every handler substitutes demo data, so an `Except.error` result
would mean an exception escaped to the caller. -/
def get_live_data (hasApiKey : Bool) (resp : NetResult) (lineId : String) (inbound : Bool)
    (now : Int) : Except PyExn (List Arrival) :=
  if !hasApiKey then .ok (get_demo_data inbound now)
  else
    match get_live_data_body resp lineId inbound now with
    | .ok l => .ok l
    | .error .timeout => .ok (get_demo_data inbound now)
    | .error (.requestException _) => .ok (get_demo_data inbound now)
    | .error (.jsonDecodeError _) => .ok (get_demo_data inbound now)
    | .error (.exception _) => .ok (get_demo_data inbound now)

/-- The 16×8 `train_pattern` of `draw_train_image`
(0 empty, 1 grey body, 2 red stripe, 3 black windows). -/
def train_pattern : List (List Nat) :=
  [ [0,0,0,0,0,0,0,0,0,0,0,0,0,0,0,0],
    [0,1,1,1,1,1,1,1,1,1,1,1,1,1,0,0],
    [2,1,1,1,1,1,1,1,1,1,1,1,1,1,1,0],
    [2,3,1,1,3,3,1,3,3,1,3,3,1,3,3,0],
    [2,3,1,1,3,3,1,3,3,1,3,3,1,3,3,0],
    [2,2,2,2,2,2,2,2,2,2,2,2,2,2,2,0],
    [0,1,0,0,1,1,1,1,1,1,1,1,0,0,1,0],
    [0,0,0,0,0,0,0,0,0,0,0,0,0,0,0,0] ]

/-- `train_pattern[row][col]`. -/
def trainVal (row col : Nat) : Nat :=
  (train_pattern.getD row []).getD col 0

/-- Color selection of `draw_train_image` for a nonzero pattern value. -/
def trainColor (v : Nat) : RGB :=
  if v = 1 then (160, 160, 160)
  else if v = 2 then (220, 20, 60)
  else (0, 0, 0)

/-- A pixel write issued to `canvas.SetPixel`: x, y, color. -/
abbrev Write := Int × Int × RGB

/-- The pixel writes of `draw_train_image(x, y)`: every nonzero pattern cell
whose translated position lies on the 64×32 panel. -/
def drawTrainWrites (x y : Int) : List Write :=
  (List.range 8).flatMap (fun row =>
    (List.range 16).flatMap (fun col =>
      let v := trainVal row col
      let px := x + (col : Int)
      let py := y + (row : Int)
      if v ≠ 0 ∧ 0 ≤ px ∧ px < 64 ∧ 0 ≤ py ∧ py < 32 then [(px, py, trainColor v)] else []))

/-- `char_pixels[y][x]` of one glyph. -/
def rowGet (p : List (List Nat)) (y x : Nat) : Nat :=
  (p.getD y []).getD x 0

/-- The pixel writes of one glyph of `draw_text_pixels` at column `cx`. -/
def charWrites (p : List (List Nat)) (cx sy : Int) (c : RGB) : List Write :=
  (List.range 7).flatMap (fun yy =>
    (List.range (charWidth p)).flatMap (fun xx =>
      let px := cx + (xx : Int)
      let py := sy + (yy : Int)
      if rowGet p yy xx = 1 ∧ 0 ≤ px ∧ px < 64 ∧ 0 ≤ py ∧ py < 32 then [(px, py, c)] else []))

/-- The pixel writes of `draw_text_pixels(text_pixels, start_x, start_y,
color)`: each glyph drawn at its running column, advancing by glyph width
plus one. -/
def drawTextWrites : List (List (List Nat)) → Int → Int → RGB → List Write
  | [], _, _, _ => []
  | p :: rest, cx, sy, c => charWrites p cx sy c ++ drawTextWrites rest (cx + charWidth p + 1) sy c

/-- The running column at which `draw_text_pixels` draws glyph `i`. -/
def charX (tp : List (List (List Nat))) (cx : Int) (i : Nat) : Int :=
  cx + ((tp.take i).map (fun p => (charWidth p : Int) + 1)).sum

/-- Upper bound on the horizontal extent of `draw_text_pixels` output. -/
def textSpan (tp : List (List (List Nat))) : Int :=
  (tp.map (fun p => (charWidth p : Int) + 1)).sum

/-- Python `int()` on the float positions of `draw_animated_train_update`:
truncation toward zero, on the rational model of the arithmetic. -/
def ratInt (q : ℚ) : Int :=
  if q < 0 then -(-q).floor else q.floor

/-- The pixel writes of one `draw_animated_train_update` call (the drawing
part; the frame advance is `advanceAnimation`).  Both phases interpolate the
sprite positions from `frame / total_frames` and gate each sprite/text on its
visibility window exactly as the source does. -/
def animatedWrites (s : DState) : List Write :=
  let text_y : Int := 12
  let train_y : Int := text_y
  let has_old_train := s.old_arrival_text ≠ ""
  let old_text_pixels := create_text_pixels s.old_arrival_text
  let old_text_width := get_text_width old_text_pixels
  let old_total_length : Int := if has_old_train then 16 + 2 + (old_text_width : Int) else 16
  let new_text_pixels := create_text_pixels s.display_arrival_text
  let new_text_width := get_text_width new_text_pixels
  let new_total_length : Int := 16 + 2 + (new_text_width : Int)
  if s.animation_phase = Phase.exiting then
    let prog : ℚ := (s.animation_frame : ℚ) / (s.animation_total_frames : ℚ)
    let old_start_x : ℚ := 1
    let old_end_x : ℚ := -((old_total_length : ℚ) + 5)
    let old_train_x := ratInt (old_start_x - ((old_start_x - old_end_x) * prog))
    let new_start_x : ℚ := 64 + (new_total_length : ℚ)
    let new_end_x : ℚ := 1
    let new_train_x := ratInt (new_start_x - ((new_start_x - new_end_x) * prog))
    let old_text_x := old_train_x + 18
    let new_text_x := new_train_x + 18
    (if old_train_x > -20 then drawTrainWrites old_train_x train_y else []) ++
    (if old_text_x > -((old_text_width : Int) + 5) then
        drawTextWrites old_text_pixels old_text_x text_y s.old_arrival_color else []) ++
    (if new_train_x < 64 then drawTrainWrites new_train_x train_y else []) ++
    (if new_text_x < 64 ∧ new_train_x < 80 then
        drawTextWrites new_text_pixels new_text_x text_y s.display_arrival_color else [])
  else
    let enter_progress : ℚ := (s.animation_frame : ℚ) / (s.animation_total_frames : ℚ)
    let enter_start_x : ℚ := 64 + (new_total_length : ℚ)
    let enter_end_x : ℚ := 1
    let new_train_x := ratInt (enter_start_x - ((enter_start_x - enter_end_x) * enter_progress))
    let new_text_x := new_train_x + 18
    (if new_train_x < 64 then drawTrainWrites new_train_x train_y else []) ++
    (if new_text_x < 64 ∧ new_train_x < 80 then
        drawTextWrites new_text_pixels new_text_x text_y s.display_arrival_color else [])

/-- A concrete 3-minute arrival as a test fixture would yield it. -/
def arrThree : Arrival :=
  { minutes := 3, destination := "Embarcadero"
    vehicle_id := none, line := none, direction := none, vehicle := none, time := none }

/-- A concrete 9-minute arrival as a test fixture would yield it. -/
def arrNine : Arrival :=
  { minutes := 9, destination := "Embarcadero"
    vehicle_id := none, line := none, direction := none, vehicle := none, time := none }

/-- Input trace: one non-empty poll, enough idle iterations for its animation
to finish, then an empty poll, then another non-empty poll. -/
def reconTrace : List (Int × List Arrival) :=
  ((10, [arrThree]) :: List.replicate 120 (20, ([] : List Arrival))) ++
    [(1000, ([] : List Arrival)), (2000, [arrNine])]

/-- The poll records produced by running `reconTrace` from a fresh display
with a 30 s update interval. -/
def reconRecs : List PollRec :=
  (runTraceR (initState 30) reconTrace).2

/-- Placeholder record for out-of-range indexing. -/
def defaultRec : PollRec :=
  { arrivals := [], changed := false, initial := false }

/-- Modelled from the spec's words (claim C3): poll `i` of a run "is the
first non-empty poll since process start". -/
def specFirstNonEmptyPoll (recs : List PollRec) (i : Nat) : Prop :=
  (recs.getD i defaultRec).arrivals ≠ [] ∧ ∀ j < i, (recs.getD j defaultRec).arrivals = []

instance (recs : List PollRec) (i : Nat) : Decidable (specFirstNonEmptyPoll recs i) := by
  unfold specFirstNonEmptyPoll
  infer_instance

/-- Input trace reaching an idle state that still holds committed arrivals:
one non-empty poll followed by idle iterations past the end of its
animation. -/
def idleTrace : List (Int × List Arrival) :=
  (10, [arrThree]) :: List.replicate 120 (20, ([] : List Arrival))

/-- The idle-with-data state reached by `idleTrace`. -/
def idleWitnessState : DState :=
  (runTraceR (initState 30) idleTrace).1

/-- Input trace stopping one draw call before the animation completes. -/
def almostDoneTrace : List (Int × List Arrival) :=
  (10, [arrThree]) :: List.replicate 105 (20, ([] : List Arrival))

/-- The mid-animation state (last frame pending) reached by
`almostDoneTrace`. -/
def almostDoneState : DState :=
  (runTraceR (initState 30) almostDoneTrace).1

/-- Snapshot document whose only visit is on line N (not the configured L). -/
def cdocWrongLine : Doc511 :=
  { stopMonitoringDelivery := [
      { monitoredStopVisit := [
        { monitoredVehicleJourney :=
          { lineRef := "N", directionRef := "IB", destinationName := some "Downtown"
            vehicleRef := none
            monitoredCall := { expectedArrivalTime := some (TimeStr.valid 120)
                               aimedArrivalTime := none } } } ] } ] }

/-- Snapshot document whose only visit carries only an `AimedArrivalTime`. -/
def cdocAimedOnly : Doc511 :=
  { stopMonitoringDelivery := [
      { monitoredStopVisit := [
        { monitoredVehicleJourney :=
          { lineRef := "L", directionRef := "IB", destinationName := some "Downtown"
            vehicleRef := none
            monitoredCall := { expectedArrivalTime := none
                               aimedArrivalTime := some (TimeStr.valid 120) } } } ] } ] }

/-- Snapshot document whose only visit lies two minutes in the past. -/
def cdocNegative : Doc511 :=
  { stopMonitoringDelivery := [
      { monitoredStopVisit := [
        { monitoredVehicleJourney :=
          { lineRef := "L", directionRef := "IB", destinationName := some "Downtown"
            vehicleRef := none
            monitoredCall := { expectedArrivalTime := some (TimeStr.valid (-120))
                               aimedArrivalTime := none } } } ] } ] }

/-- Snapshot document with two matching visits in descending minutes order. -/
def cdocUnsorted : Doc511 :=
  { stopMonitoringDelivery := [
      { monitoredStopVisit := [
        { monitoredVehicleJourney :=
          { lineRef := "L", directionRef := "IB", destinationName := some "Downtown"
            vehicleRef := none
            monitoredCall := { expectedArrivalTime := some (TimeStr.valid 300)
                               aimedArrivalTime := none } } },
        { monitoredVehicleJourney :=
          { lineRef := "L", directionRef := "IB", destinationName := some "Zoo"
            vehicleRef := none
            monitoredCall := { expectedArrivalTime := some (TimeStr.valid 120)
                               aimedArrivalTime := none } } } ] } ] }

/-! ### Helper lemmas -/

theorem charWidth_mem_font (q : Char × List (List Nat)) (h : q ∈ font_patterns) :
    2 ≤ charWidth q.2 := by
  have hall : ∀ r ∈ font_patterns, 2 ≤ charWidth r.2 := by decide
  exact hall q h

theorem charWidth_lookup_ge_two (c : Char) : 2 ≤ charWidth (lookup_pattern c) := by
  unfold lookup_pattern
  cases h : font_patterns.lookup c with
  | none => decide
  | some p =>
    rcases List.lookup_eq_some_iff.mp h with ⟨l₁, l₂, hsplit, -⟩
    have hm : (c, p) ∈ font_patterns := by
      rw [hsplit]
      exact List.mem_append_right _ (List.mem_cons_self _ _)
    exact charWidth_mem_font (c, p) hm

theorem charWidth_le_text_width (p : List (List Nat)) (rest : List (List (List Nat))) :
    charWidth p ≤ get_text_width (p :: rest) := by
  cases rest with
  | nil => simp [get_text_width]
  | cons q t => simp [get_text_width]; omega

theorem get_text_width_pos (s : String) (h : s ≠ "") :
    0 < get_text_width (create_text_pixels s) := by
  have hdata : s.data ≠ [] := by
    intro hd
    exact h (String.ext hd)
  unfold create_text_pixels
  cases hl : s.toList with
  | nil => exact absurd hl hdata
  | cons c t =>
    have h2 : 2 ≤ charWidth (lookup_pattern c.toUpper) := charWidth_lookup_ge_two _
    have := charWidth_le_text_width (lookup_pattern c.toUpper) (t.map fun c => lookup_pattern c.toUpper)
    simp only [List.map_cons]
    omega

theorem fetch_phase_current (s : DState) (now : Int) (poll : List Arrival) :
    (fetch_phase s now poll).current_arrivals = poll := by
  unfold fetch_phase
  split <;> rfl

theorem fetch_phase_last (s : DState) (now : Int) (poll : List Arrival) :
    (fetch_phase s now poll).last_data_fetch_time = now := by
  unfold fetch_phase
  split <;> rfl

theorem fetch_phase_next (s : DState) (now : Int) (poll : List Arrival) :
    (fetch_phase s now poll).next_update_time = some (now + s.update_interval) := by
  unfold fetch_phase
  split <;> rfl

theorem fetch_phase_active (s : DState) (now : Int) (poll : List Arrival) :
    (fetch_phase s now poll).animation_active = s.animation_active := by
  unfold fetch_phase
  split <;> rfl

theorem fetch_phase_frame (s : DState) (now : Int) (poll : List Arrival) :
    (fetch_phase s now poll).animation_frame = s.animation_frame := by
  unfold fetch_phase
  split <;> rfl

theorem fetch_phase_total (s : DState) (now : Int) (poll : List Arrival) :
    (fetch_phase s now poll).animation_total_frames = s.animation_total_frames := by
  unfold fetch_phase
  split <;> rfl

theorem fetch_phase_phase (s : DState) (now : Int) (poll : List Arrival) :
    (fetch_phase s now poll).animation_phase = s.animation_phase := by
  unfold fetch_phase
  split <;> rfl

theorem fetch_phase_old_text (s : DState) (now : Int) (poll : List Arrival) :
    (fetch_phase s now poll).old_arrival_text = s.old_arrival_text := by
  unfold fetch_phase
  split <;> rfl

theorem fetch_phase_old_color (s : DState) (now : Int) (poll : List Arrival) :
    (fetch_phase s now poll).old_arrival_color = s.old_arrival_color := by
  unfold fetch_phase
  split <;> rfl

theorem fetch_phase_interval (s : DState) (now : Int) (poll : List Arrival) :
    (fetch_phase s now poll).update_interval = s.update_interval := by
  unfold fetch_phase
  split <;> rfl

theorem fetch_phase_display_text (s : DState) (now : Int) (poll : List Arrival) :
    (fetch_phase s now poll).display_arrival_text = (get_arrival_text_and_color poll).1 := by
  unfold fetch_phase
  split
  · rename_i h
    rw [List.isEmpty_iff.mp h]
    rfl
  · rfl

theorem fetch_phase_display_color (s : DState) (now : Int) (poll : List Arrival) :
    (fetch_phase s now poll).display_arrival_color = (get_arrival_text_and_color poll).2 := by
  unfold fetch_phase
  split
  · rename_i h
    rw [List.isEmpty_iff.mp h]
    rfl
  · rfl

theorem startUpdateAnimation_current (s : DState) (b : Bool) :
    (startUpdateAnimation s b).current_arrivals = s.current_arrivals := by
  unfold startUpdateAnimation
  dsimp only
  split <;> rfl

theorem startUpdateAnimation_display_text (s : DState) (b : Bool) :
    (startUpdateAnimation s b).display_arrival_text = s.display_arrival_text := by
  unfold startUpdateAnimation
  dsimp only
  split <;> rfl

theorem startUpdateAnimation_display_color (s : DState) (b : Bool) :
    (startUpdateAnimation s b).display_arrival_color = s.display_arrival_color := by
  unfold startUpdateAnimation
  dsimp only
  split <;> rfl

theorem startUpdateAnimation_old_text (s : DState) (b : Bool) :
    (startUpdateAnimation s b).old_arrival_text = s.old_arrival_text := by
  unfold startUpdateAnimation
  dsimp only
  split <;> rfl

theorem startUpdateAnimation_old_color (s : DState) (b : Bool) :
    (startUpdateAnimation s b).old_arrival_color = s.old_arrival_color := by
  unfold startUpdateAnimation
  dsimp only
  split <;> rfl

theorem startUpdateAnimation_last (s : DState) (b : Bool) :
    (startUpdateAnimation s b).last_data_fetch_time = s.last_data_fetch_time := by
  unfold startUpdateAnimation
  dsimp only
  split <;> rfl

theorem startUpdateAnimation_active (s : DState) (b : Bool) :
    (startUpdateAnimation s b).animation_active = true := by
  unfold startUpdateAnimation
  dsimp only
  split <;> rfl

theorem startUpdateAnimation_frame (s : DState) (b : Bool) :
    (startUpdateAnimation s b).animation_frame = 0 := by
  unfold startUpdateAnimation
  dsimp only
  split <;> rfl

theorem startUpdateAnimation_total (s : DState) (b : Bool) :
    (startUpdateAnimation s b).animation_total_frames =
      calculate_animation_frames
        (if s.old_arrival_text = "" then 0
         else get_text_width (create_text_pixels s.old_arrival_text))
        (get_text_width (create_text_pixels s.display_arrival_text)) := by
  unfold startUpdateAnimation
  dsimp only
  split <;> rfl

theorem advanceAnimation_current (s : DState) :
    (advanceAnimation s).current_arrivals = s.current_arrivals := by
  unfold advanceAnimation
  dsimp only
  split <;> (try split) <;> rfl

theorem advanceAnimation_display_text (s : DState) :
    (advanceAnimation s).display_arrival_text = s.display_arrival_text := by
  unfold advanceAnimation
  dsimp only
  split <;> (try split) <;> rfl

theorem advanceAnimation_display_color (s : DState) :
    (advanceAnimation s).display_arrival_color = s.display_arrival_color := by
  unfold advanceAnimation
  dsimp only
  split <;> (try split) <;> rfl

theorem advanceAnimation_last (s : DState) :
    (advanceAnimation s).last_data_fetch_time = s.last_data_fetch_time := by
  unfold advanceAnimation
  dsimp only
  split <;> (try split) <;> rfl

theorem render_phase_current (s : DState) :
    (render_phase s).current_arrivals = s.current_arrivals := by
  unfold render_phase
  split
  · exact advanceAnimation_current s
  · rfl

theorem render_phase_display_text (s : DState) :
    (render_phase s).display_arrival_text = s.display_arrival_text := by
  unfold render_phase
  split
  · exact advanceAnimation_display_text s
  · rfl

theorem render_phase_display_color (s : DState) :
    (render_phase s).display_arrival_color = s.display_arrival_color := by
  unfold render_phase
  split
  · exact advanceAnimation_display_color s
  · rfl

theorem render_phase_last (s : DState) :
    (render_phase s).last_data_fetch_time = s.last_data_fetch_time := by
  unfold render_phase
  split
  · exact advanceAnimation_last s
  · rfl

theorem should_fetch_iff (s : DState) (now : Int) :
    should_fetch s now = true ↔
      s.animation_active = false ∧
        (s.last_data_fetch_time = 0 ∨ s.update_interval ≤ now - s.last_data_fetch_time) := by
  simp [should_fetch, Bool.and_eq_true, Bool.or_eq_true, decide_eq_true_iff,
    Bool.not_eq_true']

theorem runTraceR_reachable (tr : List (Int × List Arrival)) (s : DState) (h : Reachable s) :
    Reachable (runTraceR s tr).1 := by
  induction tr generalizing s with
  | nil => exact h
  | cons p rest ih =>
    obtain ⟨now, poll⟩ := p
    unfold runTraceR
    dsimp only
    split
    · exact ih _ (Reachable.step now poll h)
    · exact ih _ (Reachable.step now poll h)

theorem reachable_invariant (s : DState) (h : Reachable s) :
    (s.animation_active = true → s.current_arrivals ≠ []) ∧
    s.display_arrival_text = (get_arrival_text_and_color s.current_arrivals).1 ∧
    s.display_arrival_color = (get_arrival_text_and_color s.current_arrivals).2 := by
  induction h with
  | init interval =>
    refine ⟨?_, rfl, rfl⟩
    intro ha
    simp [initState] at ha
  | step now poll hs ih =>
    obtain ⟨ih1, ih2, ih3⟩ := ih
    rename_i s
    unfold loop_step
    dsimp only
    split
    · rename_i hf
      have hactive : s.animation_active = false := ((should_fetch_iff s now).mp hf).1
      split
      · rename_i hpe
        refine ⟨?_, ?_, ?_⟩
        · intro ha
          rw [fetch_phase_active, hactive] at ha
          exact absurd ha (by simp)
        · rw [fetch_phase_display_text, fetch_phase_current]
        · rw [fetch_phase_display_color, fetch_phase_current]
      · rename_i hpe
        have hpoll : poll ≠ [] := fun hn => hpe (by simp [hn])
        split
        · refine ⟨?_, ?_, ?_⟩
          · intro _
            rw [render_phase_current, startUpdateAnimation_current, fetch_phase_current]
            exact hpoll
          · rw [render_phase_display_text, render_phase_current,
              startUpdateAnimation_display_text, startUpdateAnimation_current,
              fetch_phase_display_text, fetch_phase_current]
          · rw [render_phase_display_color, render_phase_current,
              startUpdateAnimation_display_color, startUpdateAnimation_current,
              fetch_phase_display_color, fetch_phase_current]
        · refine ⟨?_, ?_, ?_⟩
          · intro _
            rw [render_phase_current, fetch_phase_current]
            exact hpoll
          · rw [render_phase_display_text, render_phase_current,
              fetch_phase_display_text, fetch_phase_current]
          · rw [render_phase_display_color, render_phase_current,
              fetch_phase_display_color, fetch_phase_current]
    · split
      · exact ⟨ih1, ih2, ih3⟩
      · rename_i hne
        have hcur : s.current_arrivals ≠ [] := fun hn => hne (by simp [hn])
        refine ⟨?_, ?_, ?_⟩
        · intro _
          rw [render_phase_current]
          exact hcur
        · rw [render_phase_display_text, render_phase_current]
          exact ih2
        · rw [render_phase_display_color, render_phase_current]
          exact ih3

theorem iterateAdvance_frames (base : DState) (N k : Nat) (hk : k < N) :
    iterateAdvance k
        { base with animation_active := true, animation_frame := 0,
                    animation_total_frames := N } =
      { base with animation_active := true, animation_frame := k,
                  animation_total_frames := N } := by
  induction k with
  | zero => rfl
  | succ n ihn =>
    have hn : n < N := Nat.lt_of_succ_lt hk
    rw [iterateAdvance, ihn hn]
    unfold advanceAnimation
    dsimp only
    rw [if_neg (by omega)]

theorem iterateAdvance_final (base : DState) (N : Nat) (hN : 0 < N) :
    (iterateAdvance N
        { base with animation_active := true, animation_frame := 0,
                    animation_total_frames := N }).animation_active = false ∧
    (iterateAdvance N
        { base with animation_active := true, animation_frame := 0,
                    animation_total_frames := N }).animation_frame = 0 := by
  obtain ⟨m, rfl⟩ : ∃ m, N = m + 1 := ⟨N - 1, by omega⟩
  rw [iterateAdvance, iterateAdvance_frames base (m + 1) m (by omega)]
  unfold advanceAnimation
  dsimp only
  rw [if_pos (by omega)]
  split <;> exact ⟨rfl, rfl⟩

/-- C1: frame-count policy of the armed transition.  With no prior committed
text the frame budget is `(64 + 16 + 2 + textWidth new) - 1`; with a prior
committed text of positive width it is
`max (1 + 16 + 2 + textWidth old) ((64 + 16 + 2 + textWidth new) - 1) + 1`,
one frame per pixel of travel plus one frame of slack. -/
theorem C1_frame_count_policy (s : DState) (is_initial_load : Bool) :
    (s.old_arrival_text = "" →
      (startUpdateAnimation s is_initial_load).animation_total_frames =
        (64 + 16 + 2 + get_text_width (create_text_pixels s.display_arrival_text)) - 1) ∧
    (s.old_arrival_text ≠ "" →
      (startUpdateAnimation s is_initial_load).animation_total_frames =
        max (1 + 16 + 2 + get_text_width (create_text_pixels s.old_arrival_text))
          ((64 + 16 + 2 + get_text_width (create_text_pixels s.display_arrival_text)) - 1) + 1) := by
  rw [startUpdateAnimation_total]
  constructor
  · intro h
    rw [if_pos h]
    unfold calculate_animation_frames
    rw [if_pos rfl]
    dsimp only
    omega
  · intro h
    rw [if_neg h]
    have hw : 0 < get_text_width (create_text_pixels s.old_arrival_text) :=
      get_text_width_pos s.old_arrival_text h
    unfold calculate_animation_frames
    rw [if_neg (by omega)]
    dsimp only
    omega

/-- Witness for C1 at concrete states: a fresh display ("NO DATA", width 38)
gives 119 frames; the idle state reached after committing "3 MIN" (width 26)
gives 108 frames on the next transition. -/
theorem C1_frame_count_policy_witness :
    (startUpdateAnimation (initState 30) true).animation_total_frames = 119 ∧
    (startUpdateAnimation idleWitnessState false).animation_total_frames = 108 := by
  constructor
  · have h := (C1_frame_count_policy (initState 30) true).1 rfl
    rw [h]
    decide
  · have h := (C1_frame_count_policy idleWitnessState false).2 (by decide)
    rw [h]
    decide

/-- C2: an armed animation with `total_frames = N > 0` starting at frame 0
returns to idle (inactive, frame 0) after exactly `N` draw calls and not
before; across those calls the progress `frame / total_frames` is
monotonically non-decreasing and stays inside `[0, 1]` (frames never leave
the valid range `0 ≤ frame < N` while active, so no clamping is exercised). -/
theorem C2_animation_engine (N : Nat) (hN : 0 < N) (base s0 : DState)
    (hs0 : s0 = { base with animation_active := true, animation_frame := 0, animation_total_frames := N }) :
    (∀ k, k < N → (iterateAdvance k s0).animation_active = true ∧
        (iterateAdvance k s0).animation_frame = k) ∧
    ((iterateAdvance N s0).animation_active = false ∧
      (iterateAdvance N s0).animation_frame = 0) ∧
    (∀ k₁ k₂, k₁ ≤ k₂ → k₂ < N →
        progress (iterateAdvance k₁ s0) ≤ progress (iterateAdvance k₂ s0)) ∧
    (∀ k, k < N → 0 ≤ progress (iterateAdvance k s0) ∧
        progress (iterateAdvance k s0) ≤ 1) := by
  subst hs0
  have hNQ : (0 : ℚ) < (N : ℚ) := by exact_mod_cast hN
  have hprog : ∀ k, k < N →
      progress (iterateAdvance k
        { base with animation_active := true, animation_frame := 0,
                    animation_total_frames := N }) = (k : ℚ) / (N : ℚ) := by
    intro k hk
    rw [iterateAdvance_frames base N k hk]
    rfl
  refine ⟨?_, iterateAdvance_final base N hN, ?_, ?_⟩
  · intro k hk
    rw [iterateAdvance_frames base N k hk]
    exact ⟨rfl, rfl⟩
  · intro k₁ k₂ h12 hk2
    rw [hprog k₁ (lt_of_le_of_lt h12 hk2), hprog k₂ hk2]
    exact div_le_div_of_nonneg_right (by exact_mod_cast h12) hNQ.le
  · intro k hk
    rw [hprog k hk]
    constructor
    · positivity
    · rw [div_le_one hNQ]
      exact_mod_cast Nat.le_of_lt hk

/-- Witness for C2 with `N = 2` from a fresh display state. -/
theorem C2_animation_engine_witness :
    (iterateAdvance 2
      { initState 30 with animation_active := true, animation_frame := 0,
                          animation_total_frames := 2 }).animation_active = false :=
  (C2_animation_engine 2 (by decide) (initState 30) _ rfl).2.1.1

theorem loop_step_polled (s : DState) (now : Int) (poll : List Arrival) :
    (loop_step s now poll).polled = should_fetch s now := by
  unfold loop_step
  dsimp only
  split
  · rename_i hf
    split <;> simp [hf]
  · rename_i hf
    have hsf : should_fetch s now = false := by
      cases hx : should_fetch s now
      · rfl
      · exact absurd hx hf
    split <;> simp [hsf]

theorem loop_step_state_of_not_fetch (s : DState) (now : Int) (poll : List Arrival)
    (h : should_fetch s now = false) :
    (loop_step s now poll).state =
      if s.current_arrivals.isEmpty then s else render_phase s := by
  unfold loop_step
  dsimp only
  rw [if_neg (by simp [h])]
  split <;> simp_all

theorem loop_step_changed (s : DState) (now : Int) (poll : List Arrival)
    (h : should_fetch s now = true) :
    (loop_step s now poll).changed = decide (poll ≠ s.current_arrivals) := by
  unfold loop_step
  dsimp only
  rw [if_pos h]
  split <;> rfl

theorem loop_step_initial (s : DState) (now : Int) (poll : List Arrival)
    (h : should_fetch s now = true) :
    (loop_step s now poll).initial = s.current_arrivals.isEmpty := by
  unfold loop_step
  dsimp only
  rw [if_pos h]
  split <;> rfl

theorem loop_step_state_of_fetch (s : DState) (now : Int) (poll : List Arrival)
    (h : should_fetch s now = true) :
    (loop_step s now poll).state =
      if poll.isEmpty then fetch_phase s now poll
      else
        render_phase
          (if (decide (poll ≠ s.current_arrivals) || s.current_arrivals.isEmpty) &&
              !(fetch_phase s now poll).animation_active then
            startUpdateAnimation (fetch_phase s now poll) s.current_arrivals.isEmpty
          else fetch_phase s now poll) := by
  unfold loop_step
  dsimp only
  rw [if_pos h]
  split <;> rename_i hpe <;> simp [hpe]

/-- C5: poll gating of the scheduler loop.  A poll is issued in an iteration
iff the animation is inactive and the last-fetch timestamp is 0 or at least
`update_interval` old; while the animation is active no poll happens and the
fetch state is untouched; a non-polling iteration leaves the last-fetch
timestamp unchanged, and a polling one sets it to the current clock, so the
interval is measured from the previous fetch. -/
theorem C5_scheduler_poll_gating (s : DState) (now : Int) (poll : List Arrival) :
    ((loop_step s now poll).polled = true ↔
      s.animation_active = false ∧
        (s.last_data_fetch_time = 0 ∨ s.update_interval ≤ now - s.last_data_fetch_time)) ∧
    (s.animation_active = true →
      (loop_step s now poll).polled = false ∧
      (loop_step s now poll).state.last_data_fetch_time = s.last_data_fetch_time ∧
      (loop_step s now poll).state.current_arrivals = s.current_arrivals) ∧
    ((loop_step s now poll).polled = false →
      (loop_step s now poll).state.last_data_fetch_time = s.last_data_fetch_time) ∧
    ((loop_step s now poll).polled = true →
      (loop_step s now poll).state.last_data_fetch_time = now) := by
  have hnofetch : should_fetch s now = false →
      (loop_step s now poll).state.last_data_fetch_time = s.last_data_fetch_time ∧
      (loop_step s now poll).state.current_arrivals = s.current_arrivals := by
    intro h
    rw [loop_step_state_of_not_fetch s now poll h]
    split
    · exact ⟨rfl, rfl⟩
    · exact ⟨render_phase_last s, render_phase_current s⟩
  refine ⟨?_, ?_, ?_, ?_⟩
  · rw [loop_step_polled, should_fetch_iff]
  · intro ha
    have hsf : should_fetch s now = false := by simp [should_fetch, ha]
    exact ⟨by rw [loop_step_polled, hsf], (hnofetch hsf).1, (hnofetch hsf).2⟩
  · intro hp
    rw [loop_step_polled] at hp
    exact (hnofetch hp).1
  · intro hp
    rw [loop_step_polled] at hp
    rw [loop_step_state_of_fetch s now poll hp]
    split
    · exact fetch_phase_last s now poll
    · rw [render_phase_last]
      split
      · rw [startUpdateAnimation_last, fetch_phase_last]
      · exact fetch_phase_last s now poll

/-- Witness for C5: a fresh display polls on its first iteration (last-fetch
timestamp 0) and records the fetch time. -/
theorem C5_scheduler_poll_gating_witness :
    (loop_step (initState 30) 7 []).polled = true ∧
    (loop_step (initState 30) 7 []).state.last_data_fetch_time = 7 := by
  have h := C5_scheduler_poll_gating (initState 30) 7 []
  have hp : (loop_step (initState 30) 7 []).polled = true :=
    h.1.mpr (by constructor <;> simp [initState])
  exact ⟨hp, h.2.2.2 hp⟩

theorem render_phase_of_inactive (s : DState) (h : s.animation_active = false) :
    render_phase s = s := by
  unfold render_phase
  rw [if_neg (by simp [h])]

theorem render_phase_of_active (s : DState) (h : s.animation_active = true) :
    render_phase s = advanceAnimation s := by
  unfold render_phase
  rw [if_pos h]

theorem advanceAnimation_complete (s : DState)
    (h : s.animation_total_frames ≤ s.animation_frame + 1)
    (hc : s.current_arrivals.isEmpty = false) :
    advanceAnimation s =
      { s with animation_active := false, animation_frame := 0,
               animation_phase := Phase.entering,
               old_arrival_text := s.display_arrival_text,
               old_arrival_color := s.display_arrival_color } := by
  unfold advanceAnimation
  dsimp only
  rw [if_pos h, if_neg (by simp [hc])]

theorem loop_step_armed_of_fetch (s : DState) (now : Int) (poll : List Arrival)
    (hf : should_fetch s now = true) (hpe : poll.isEmpty = false) :
    (loop_step s now poll).armed =
      ((decide (poll ≠ s.current_arrivals) || s.current_arrivals.isEmpty) &&
        !(fetch_phase s now poll).animation_active) := by
  unfold loop_step
  dsimp only
  rw [if_pos hf]
  split
  · rename_i h
    rw [hpe] at h
    exact absurd h (by simp)
  · rfl

/-- C3 counterexample: on the run `[arrThree] , [] , [arrNine]` the third
issued poll has `initial = true` although it is not the first non-empty poll
since process start (the first poll already was non-empty), so `initial` is
not equivalent to "first non-empty poll since process start". -/
theorem C3_counterexample_initial_flag :
    (reconRecs.getD 2 defaultRec).initial = true ∧
    (reconRecs.getD 2 defaultRec).arrivals ≠ [] ∧
    ¬ specFirstNonEmptyPoll reconRecs 2 := by
  decide

/-- C3 (amended): on every issued poll, `changed` is true iff the new list is
not element-wise equal to the previously stored list, `initial` is true iff
the previously stored arrival list is empty (no poll yet, or the most recent
poll returned no arrivals), and the stored snapshot and fetch timestamp are
unconditionally replaced. -/
theorem C3_reconciler_decision (s : DState) (now : Int) (poll : List Arrival)
    (hactive : s.animation_active = false)
    (hgate : s.last_data_fetch_time = 0 ∨ s.update_interval ≤ now - s.last_data_fetch_time) :
    (loop_step s now poll).polled = true ∧
    ((loop_step s now poll).changed = true ↔ poll ≠ s.current_arrivals) ∧
    ((loop_step s now poll).initial = true ↔ s.current_arrivals = []) ∧
    (loop_step s now poll).state.current_arrivals = poll ∧
    (loop_step s now poll).state.last_data_fetch_time = now := by
  have hf : should_fetch s now = true := (should_fetch_iff s now).mpr ⟨hactive, hgate⟩
  refine ⟨by rw [loop_step_polled]; exact hf, ?_, ?_, ?_, ?_⟩
  · rw [loop_step_changed s now poll hf]
    simp
  · rw [loop_step_initial s now poll hf]
    simp
  · rw [loop_step_state_of_fetch s now poll hf]
    split
    · exact fetch_phase_current s now poll
    · rw [render_phase_current]
      split
      · rw [startUpdateAnimation_current, fetch_phase_current]
      · exact fetch_phase_current s now poll
  · rw [loop_step_state_of_fetch s now poll hf]
    split
    · exact fetch_phase_last s now poll
    · rw [render_phase_last]
      split
      · rw [startUpdateAnimation_last, fetch_phase_last]
      · exact fetch_phase_last s now poll

/-- Witness for C3 (amended) at a fresh display: the first poll is issued,
reports `changed` and `initial`, and stores snapshot and timestamp. -/
theorem C3_reconciler_decision_witness :
    (loop_step (initState 30) 7 [arrThree]).polled = true ∧
    (loop_step (initState 30) 7 [arrThree]).state.current_arrivals = [arrThree] ∧
    (loop_step (initState 30) 7 [arrThree]).state.last_data_fetch_time = 7 := by
  have h := C3_reconciler_decision (initState 30) 7 [arrThree] (by decide)
    (Or.inl (by decide))
  exact ⟨h.1, h.2.2.2.1, h.2.2.2.2⟩

/-- C10: a poll returning a list element-wise equal to the stored non-empty
list arms no animation and leaves every piece of display state unchanged
except the last-fetch timestamp and the next-update deadline. -/
theorem C10_identical_poll_frame_condition (s : DState) (now : Int) (poll : List Arrival)
    (hreach : Reachable s)
    (hgate : s.last_data_fetch_time = 0 ∨ s.update_interval ≤ now - s.last_data_fetch_time)
    (hactive : s.animation_active = false)
    (hpoll : poll = s.current_arrivals)
    (hne : s.current_arrivals ≠ []) :
    (loop_step s now poll).armed = false ∧
    (loop_step s now poll).state.display_arrival_text = s.display_arrival_text ∧
    (loop_step s now poll).state.display_arrival_color = s.display_arrival_color ∧
    (loop_step s now poll).state.current_arrivals = s.current_arrivals ∧
    (loop_step s now poll).state.animation_active = false ∧
    (loop_step s now poll).state.animation_frame = s.animation_frame ∧
    (loop_step s now poll).state.animation_total_frames = s.animation_total_frames ∧
    (loop_step s now poll).state.animation_phase = s.animation_phase ∧
    (loop_step s now poll).state.old_arrival_text = s.old_arrival_text ∧
    (loop_step s now poll).state.old_arrival_color = s.old_arrival_color ∧
    (loop_step s now poll).state.last_data_fetch_time = now ∧
    (loop_step s now poll).state.next_update_time = some (now + s.update_interval) := by
  have hf : should_fetch s now = true := (should_fetch_iff s now).mpr ⟨hactive, hgate⟩
  have hpe : poll.isEmpty = false := by
    rw [hpoll]
    simp [hne]
  have harm : (decide (poll ≠ s.current_arrivals) || s.current_arrivals.isEmpty) = false := by
    rw [hpoll]
    simp [hne]
  have hstate : (loop_step s now poll).state = fetch_phase s now poll := by
    rw [loop_step_state_of_fetch s now poll hf, if_neg (by simp [hpe]), harm]
    rw [Bool.false_and, if_neg (by simp)]
    exact render_phase_of_inactive _ (by rw [fetch_phase_active]; exact hactive)
  have hinv := reachable_invariant s hreach
  refine ⟨?_, ?_, ?_, ?_, ?_, ?_, ?_, ?_, ?_, ?_, ?_, ?_⟩
  · rw [loop_step_armed_of_fetch s now poll hf hpe, harm, Bool.false_and]
  · rw [hstate, fetch_phase_display_text, hpoll, ← hinv.2.1]
  · rw [hstate, fetch_phase_display_color, hpoll, ← hinv.2.2]
  · rw [hstate, fetch_phase_current, hpoll]
  · rw [hstate, fetch_phase_active, hactive]
  · rw [hstate, fetch_phase_frame]
  · rw [hstate, fetch_phase_total]
  · rw [hstate, fetch_phase_phase]
  · rw [hstate, fetch_phase_old_text]
  · rw [hstate, fetch_phase_old_color]
  · rw [hstate, fetch_phase_last]
  · rw [hstate, fetch_phase_next]

/-- Witness for C10 at the reachable idle state holding the committed 3-minute
arrival, re-polled with the identical list. -/
theorem C10_identical_poll_frame_condition_witness :
    (loop_step idleWitnessState 1000 [arrThree]).armed = false ∧
    (loop_step idleWitnessState 1000 [arrThree]).state.display_arrival_text =
      idleWitnessState.display_arrival_text ∧
    (loop_step idleWitnessState 1000 [arrThree]).state.old_arrival_text =
      idleWitnessState.old_arrival_text := by
  have hr : Reachable idleWitnessState :=
    runTraceR_reachable idleTrace (initState 30) (Reachable.init 30)
  have h := C10_identical_poll_frame_condition idleWitnessState 1000 [arrThree] hr
    (Or.inr (by decide)) (by decide) (by decide) (by decide)
  exact ⟨h.1, h.2.1, h.2.2.2.2.2.2.2.2.1⟩

/-- C4: display-state invariant.  On every reachable state: an active
animation implies stored arrivals exist (so every completion commits);
`display_arrival_text/color` equal the classification of the most recently
accepted arrival list; when the in-flight animation reaches its last frame,
the next loop iteration commits the displayed text/color into the old-text
slots and resets to idle with frame 0; and in the entering phase the drawn
frame is independent of the old-text slots (they are consulted only during
the exit phase). -/
theorem C4_display_commit_invariant (s : DState) (hreach : Reachable s) :
    (s.animation_active = true → s.current_arrivals ≠ []) ∧
    (s.display_arrival_text = (get_arrival_text_and_color s.current_arrivals).1 ∧
      s.display_arrival_color = (get_arrival_text_and_color s.current_arrivals).2) ∧
    (∀ (now : Int) (poll : List Arrival), s.animation_active = true →
      s.animation_total_frames ≤ s.animation_frame + 1 →
      (loop_step s now poll).state.old_arrival_text = s.display_arrival_text ∧
      (loop_step s now poll).state.old_arrival_color = s.display_arrival_color ∧
      (loop_step s now poll).state.animation_active = false ∧
      (loop_step s now poll).state.animation_frame = 0) ∧
    (∀ (t : String) (c : RGB), s.animation_phase = Phase.entering →
      animatedWrites { s with old_arrival_text := t, old_arrival_color := c } =
        animatedWrites s) := by
  have hinv := reachable_invariant s hreach
  refine ⟨hinv.1, ⟨hinv.2.1, hinv.2.2⟩, ?_, ?_⟩
  · intro now poll hactive hlast
    have hcur : s.current_arrivals ≠ [] := hinv.1 hactive
    have hsf : should_fetch s now = false := by simp [should_fetch, hactive]
    have hstate : (loop_step s now poll).state = advanceAnimation s := by
      rw [loop_step_state_of_not_fetch s now poll hsf, if_neg (by simp [hcur])]
      exact render_phase_of_active s hactive
    rw [hstate, advanceAnimation_complete s hlast (by simp [hcur])]
    exact ⟨rfl, rfl, rfl, rfl⟩
  · intro t c hphase
    unfold animatedWrites
    dsimp only
    rw [hphase]
    simp

/-- Witness for C4 at the reachable state one draw call short of completion:
that iteration commits "3 MIN" into the old-text slot and returns to idle. -/
theorem C4_display_commit_invariant_witness :
    (loop_step almostDoneState 20 []).state.old_arrival_text =
      almostDoneState.display_arrival_text ∧
    (loop_step almostDoneState 20 []).state.animation_active = false ∧
    (loop_step almostDoneState 20 []).state.animation_frame = 0 := by
  have hr : Reachable almostDoneState :=
    runTraceR_reachable almostDoneTrace (initState 30) (Reachable.init 30)
  have h := (C4_display_commit_invariant almostDoneState hr).2.2.1 20 []
    (by decide) (by decide)
  exact ⟨h.1, h.2.2.1, h.2.2.2⟩

/-- C7: the classification is a pure function of the arrival list mapping an
empty list to ("NO DATA", yellow), soonest 0 to ("NOW", red), soonest 1 to
("1 MIN", red), soonest in [2,5] to ("N MIN", orange) and soonest above 5 to
("N MIN", green), with exact cut points at 1 and 5. -/
theorem C7_classification (l : List Arrival) :
    (l = [] → get_arrival_text_and_color l = ("NO DATA", (255, 255, 0))) ∧
    (∀ a rest, l = a :: rest →
      (a.minutes = 0 → get_arrival_text_and_color l = ("NOW", (255, 0, 0))) ∧
      (a.minutes = 1 → get_arrival_text_and_color l = ("1 MIN", (255, 0, 0))) ∧
      (2 ≤ a.minutes → a.minutes ≤ 5 →
        get_arrival_text_and_color l = (toString a.minutes ++ " MIN", (255, 128, 0))) ∧
      (5 < a.minutes →
        get_arrival_text_and_color l = (toString a.minutes ++ " MIN", (0, 255, 0)))) := by
  constructor
  · intro h
    subst h
    rfl
  · intro a rest h
    subst h
    refine ⟨?_, ?_, ?_, ?_⟩
    · intro h0
      simp [get_arrival_text_and_color, h0]
    · intro h1
      simp [get_arrival_text_and_color, h1]
    · intro h2 h5
      unfold get_arrival_text_and_color
      dsimp only
      rw [if_neg (by omega), if_neg (by omega), if_pos h5]
    · intro h5
      unfold get_arrival_text_and_color
      dsimp only
      rw [if_neg (by omega), if_neg (by omega), if_neg (by omega)]

/-- Witness for C7 at concrete arrival lists for the orange, green and
no-data bands. -/
theorem C7_classification_witness :
    get_arrival_text_and_color [arrThree] = ("3 MIN", (255, 128, 0)) ∧
    get_arrival_text_and_color [arrNine] = ("9 MIN", (0, 255, 0)) ∧
    get_arrival_text_and_color [] = ("NO DATA", (255, 255, 0)) := by
  refine ⟨?_, ?_, (C7_classification []).1 rfl⟩
  · have h := ((C7_classification [arrThree]).2 arrThree [] rfl).2.2.1 (by decide) (by decide)
    rw [h]
    decide
  · have h := ((C7_classification [arrNine]).2 arrNine [] rfl).2.2.2 (by decide)
    rw [h]
    decide

/-- C6: `get_live_data` never lets an exception escape: every result is
`Except.ok`; on any failure (timeout, transport error, malformed JSON, any
other exception) or on an empty parse it returns DemoSource's synthesized
list, and only a successful non-empty parse is passed through. -/
theorem C6_live_data_never_throws (hasApiKey : Bool) (resp : NetResult) (lineId : String)
    (inbound : Bool) (now : Int) :
    (∃ l, get_live_data hasApiKey resp lineId inbound now = Except.ok l) ∧
    (resp.isFailure = true →
      get_live_data hasApiKey resp lineId inbound now =
        Except.ok (get_demo_data inbound now)) ∧
    (∀ doc, resp = NetResult.ok doc →
      parse_511_response lineId inbound now doc = [] →
      get_live_data hasApiKey resp lineId inbound now =
        Except.ok (get_demo_data inbound now)) ∧
    (∀ doc, resp = NetResult.ok doc → hasApiKey = true →
      parse_511_response lineId inbound now doc ≠ [] →
      get_live_data hasApiKey resp lineId inbound now =
        Except.ok (parse_511_response lineId inbound now doc)) := by
  unfold get_live_data get_live_data_body
  cases hasApiKey with
  | false =>
    dsimp only
    exact ⟨⟨get_demo_data inbound now, rfl⟩, fun _ => rfl, fun _ _ _ => rfl,
      fun doc hd hk => absurd hk (by simp)⟩
  | true =>
    dsimp only
    cases resp with
    | raiseTimeout =>
      refine ⟨⟨get_demo_data inbound now, rfl⟩, fun _ => rfl, ?_, ?_⟩
      · intro doc hd
        exact nomatch hd
      · intro doc hd
        exact nomatch hd
    | raiseRequestError m =>
      refine ⟨⟨get_demo_data inbound now, rfl⟩, fun _ => rfl, ?_, ?_⟩
      · intro doc hd
        exact nomatch hd
      · intro doc hd
        exact nomatch hd
    | invalidJSON m =>
      refine ⟨⟨get_demo_data inbound now, rfl⟩, fun _ => rfl, ?_, ?_⟩
      · intro doc hd
        exact nomatch hd
      · intro doc hd
        exact nomatch hd
    | otherError m =>
      refine ⟨⟨get_demo_data inbound now, rfl⟩, fun _ => rfl, ?_, ?_⟩
      · intro doc hd
        exact nomatch hd
      · intro doc hd
        exact nomatch hd
    | ok doc =>
      refine ⟨?_, ?_, ?_, ?_⟩
      · by_cases he : (parse_511_response lineId inbound now doc).isEmpty = true
        · exact ⟨get_demo_data inbound now, by simp [he]⟩
        · exact ⟨parse_511_response lineId inbound now doc, by simp [he]⟩
      · intro hfail
        simp [NetResult.isFailure] at hfail
      · intro doc2 hd hparse
        cases hd
        simp [hparse]
      · intro doc2 hd hk hne
        cases hd
        simp [List.isEmpty_iff, hne]

/-- Witness for C6: a timed-out request yields the demo arrivals, and a
successful parse of the unsorted two-visit document is passed through. -/
theorem C6_live_data_never_throws_witness :
    get_live_data true NetResult.raiseTimeout "L" true 0 =
      Except.ok (get_demo_data true 0) ∧
    get_live_data true (NetResult.ok cdocUnsorted) "L" true 0 =
      Except.ok (parse_511_response "L" true 0 cdocUnsorted) := by
  constructor
  · exact (C6_live_data_never_throws true NetResult.raiseTimeout "L" true 0).2.1 rfl
  · exact (C6_live_data_never_throws true (NetResult.ok cdocUnsorted) "L" true 0).2.2.2
      cdocUnsorted rfl rfl (by decide)

/-- C8 counterexample: on a concrete snapshot document (a single visit on
line N with a valid ExpectedArrivalTime) the fixture parse and the live parse
of the same document (configured line L, inbound) disagree: the fixture
parser keeps the visit, the live parser filters it out. -/
theorem C8_counterexample_parser_mismatch :
    get_test_entry_arrivals 0 cdocWrongLine ≠ parse_511_response "L" true 0 cdocWrongLine := by
  decide

/-- C8 (amended): `get_test_data` serves its loaded snapshots round-robin
(each poll parses the entry at the current index and advances the index
modulo the number of entries, wrapping to the first after the last), but its
parse is not the live parser's logic: it applies no line/direction filter,
uses only ExpectedArrivalTime with no AimedArrivalTime fallback, clamps
negative minutes to 0 instead of discarding the entry, does not sort by
minutes, and records only minutes and destination. -/
theorem C8_round_robin_and_parser_divergence (test_data : List Doc511) (idx : Nat) (now : Int)
    (hlen : idx < test_data.length) :
    ((get_test_data test_data idx now).2 = (idx + 1) % test_data.length ∧
      (get_test_data test_data idx now).1 =
        get_test_entry_arrivals now (test_data.getD idx { stopMonitoringDelivery := [] })) ∧
    (get_test_entry_arrivals 0 cdocWrongLine ≠ [] ∧
      parse_511_response "L" true 0 cdocWrongLine = []) ∧
    (get_test_entry_arrivals 0 cdocAimedOnly = [] ∧
      parse_511_response "L" true 0 cdocAimedOnly ≠ []) ∧
    ((get_test_entry_arrivals 0 cdocNegative).map Arrival.minutes = [0] ∧
      parse_511_response "L" true 0 cdocNegative = []) ∧
    ((get_test_entry_arrivals 0 cdocUnsorted).map Arrival.minutes = [5, 2] ∧
      (parse_511_response "L" true 0 cdocUnsorted).map Arrival.minutes = [2, 5]) ∧
    (∀ a ∈ get_test_entry_arrivals 0 cdocUnsorted, a.vehicle_id = none ∧ a.line = none) ∧
    (∀ a ∈ parse_511_response "L" true 0 cdocUnsorted, a.vehicle_id ≠ none ∧ a.line ≠ none) := by
  have hne : test_data ≠ [] := List.ne_nil_of_length_pos (by omega)
  refine ⟨?_, by decide, by decide, by decide, by decide, by decide, by decide⟩
  unfold get_test_data
  rw [if_neg (by simp [hne])]
  exact ⟨rfl, rfl⟩

/-- Witness for C8 (amended): with two loaded snapshots, polling at index 1
wraps the index back to 0 and parses the second snapshot. -/
theorem C8_round_robin_and_parser_divergence_witness :
    (get_test_data [cdocWrongLine, cdocAimedOnly] 1 0).2 = 0 ∧
    (get_test_data [cdocWrongLine, cdocAimedOnly] 1 0).1 =
      get_test_entry_arrivals 0 cdocAimedOnly := by
  have h := (C8_round_robin_and_parser_divergence [cdocWrongLine, cdocAimedOnly] 1 0
    (by decide)).1
  refine ⟨?_, ?_⟩
  · rw [h.1]
    rfl
  · rw [h.2]
    rfl

theorem drawTrainWrites_mem (x y : Int) (w : Write) :
    w ∈ drawTrainWrites x y ↔
      ∃ row col : Nat, row < 8 ∧ col < 16 ∧ trainVal row col ≠ 0 ∧
        0 ≤ x + (col : Int) ∧ x + (col : Int) < 64 ∧
        0 ≤ y + (row : Int) ∧ y + (row : Int) < 32 ∧
        w = (x + (col : Int), y + (row : Int), trainColor (trainVal row col)) := by
  unfold drawTrainWrites
  simp only [List.mem_flatMap, List.mem_range]
  constructor
  · rintro ⟨row, hrow, col, hcol, hw⟩
    split at hw
    · rename_i hcond
      simp only [List.mem_singleton] at hw
      exact ⟨row, col, hrow, hcol, hcond.1, hcond.2.1, hcond.2.2.1, hcond.2.2.2.1,
        hcond.2.2.2.2, hw⟩
    · simp at hw
  · rintro ⟨row, col, hrow, hcol, hv, h1, h2, h3, h4, rfl⟩
    refine ⟨row, hrow, col, hcol, ?_⟩
    rw [if_pos ⟨hv, h1, h2, h3, h4⟩]
    simp

theorem drawTrainWrites_span (x y : Int) (w : Write) (hw : w ∈ drawTrainWrites x y) :
    (0 ≤ w.1 ∧ w.1 < 64 ∧ 0 ≤ w.2.1 ∧ w.2.1 < 32) ∧ x ≤ w.1 ∧ w.1 ≤ x + 15 := by
  rcases (drawTrainWrites_mem x y w).mp hw with ⟨row, col, hrow, hcol, _, h1, h2, h3, h4, rfl⟩
  dsimp only
  refine ⟨⟨h1, h2, h3, h4⟩, ?_, ?_⟩ <;> omega

theorem drawTrainWrites_off_left (x y : Int) (h : x ≤ -20) : drawTrainWrites x y = [] := by
  rw [List.eq_nil_iff_forall_not_mem]
  intro w hw
  have := drawTrainWrites_span x y w hw
  omega

theorem drawTrainWrites_off_right (x y : Int) (h : 64 ≤ x) : drawTrainWrites x y = [] := by
  rw [List.eq_nil_iff_forall_not_mem]
  intro w hw
  have := drawTrainWrites_span x y w hw
  omega

theorem charWrites_mem (p : List (List Nat)) (cx sy : Int) (c : RGB) (w : Write) :
    w ∈ charWrites p cx sy c ↔
      ∃ yy xx : Nat, yy < 7 ∧ xx < charWidth p ∧ rowGet p yy xx = 1 ∧
        0 ≤ cx + (xx : Int) ∧ cx + (xx : Int) < 64 ∧
        0 ≤ sy + (yy : Int) ∧ sy + (yy : Int) < 32 ∧
        w = (cx + (xx : Int), sy + (yy : Int), c) := by
  unfold charWrites
  simp only [List.mem_flatMap, List.mem_range]
  constructor
  · rintro ⟨yy, hyy, xx, hxx, hw⟩
    split at hw
    · rename_i hcond
      simp only [List.mem_singleton] at hw
      exact ⟨yy, xx, hyy, hxx, hcond.1, hcond.2.1, hcond.2.2.1, hcond.2.2.2.1,
        hcond.2.2.2.2, hw⟩
    · simp at hw
  · rintro ⟨yy, xx, hyy, hxx, hbit, h1, h2, h3, h4, rfl⟩
    refine ⟨yy, hyy, xx, hxx, ?_⟩
    rw [if_pos ⟨hbit, h1, h2, h3, h4⟩]
    simp

theorem textSpan_nonneg (tp : List (List (List Nat))) : 0 ≤ textSpan tp := by
  induction tp with
  | nil => simp [textSpan]
  | cons p rest ih =>
    simp only [textSpan, List.map_cons, List.sum_cons] at *
    omega

theorem textSpan_cons (p : List (List Nat)) (rest : List (List (List Nat))) :
    textSpan (p :: rest) = ((charWidth p : Int) + 1) + textSpan rest := by
  simp [textSpan]

theorem drawTextWrites_span (tp : List (List (List Nat))) (cx sy : Int) (c : RGB)
    (w : Write) (hw : w ∈ drawTextWrites tp cx sy c) :
    (0 ≤ w.1 ∧ w.1 < 64 ∧ 0 ≤ w.2.1 ∧ w.2.1 < 32) ∧ cx ≤ w.1 ∧ w.1 < cx + textSpan tp := by
  induction tp generalizing cx with
  | nil => simp [drawTextWrites] at hw
  | cons p rest ih =>
    rw [drawTextWrites] at hw
    rcases List.mem_append.mp hw with hmem | hmem
    · rcases (charWrites_mem p cx sy c w).mp hmem with
        ⟨yy, xx, hyy, hxx, _, h1, h2, h3, h4, rfl⟩
      dsimp only
      rw [textSpan_cons]
      have hsp := textSpan_nonneg rest
      refine ⟨⟨h1, h2, h3, h4⟩, ?_, ?_⟩ <;> omega
    · have := ih (cx + (charWidth p : Int) + 1) hmem
      rw [textSpan_cons]
      refine ⟨this.1, ?_, ?_⟩ <;> omega

theorem drawTextWrites_off_right (tp : List (List (List Nat))) (cx sy : Int) (c : RGB)
    (h : 64 ≤ cx) : drawTextWrites tp cx sy c = [] := by
  rw [List.eq_nil_iff_forall_not_mem]
  intro w hw
  have := drawTextWrites_span tp cx sy c w hw
  omega

theorem textSpan_le_width (tp : List (List (List Nat))) :
    textSpan tp ≤ (get_text_width tp : Int) + 1 := by
  induction tp with
  | nil => simp [textSpan, get_text_width]
  | cons p rest ih =>
    cases rest with
    | nil => simp [textSpan, get_text_width]
    | cons q t =>
      rw [textSpan_cons]
      have hg : get_text_width (p :: q :: t) = charWidth p + 1 + get_text_width (q :: t) := rfl
      rw [hg]
      push_cast
      omega

theorem drawTextWrites_off_left (tp : List (List (List Nat))) (cx sy : Int) (c : RGB)
    (h : cx + (get_text_width tp : Int) + 5 ≤ 0) : drawTextWrites tp cx sy c = [] := by
  rw [List.eq_nil_iff_forall_not_mem]
  intro w hw
  have hs := drawTextWrites_span tp cx sy c w hw
  have hl := textSpan_le_width tp
  omega

theorem charX_zero (tp : List (List (List Nat))) (cx : Int) : charX tp cx 0 = cx := by
  simp [charX]

theorem charX_cons_succ (p : List (List Nat)) (rest : List (List (List Nat))) (cx : Int)
    (j : Nat) :
    charX (p :: rest) cx (j + 1) = charX rest (cx + (charWidth p : Int) + 1) j := by
  simp only [charX, List.take_succ_cons, List.map_cons, List.sum_cons]
  omega

theorem drawTextWrites_complete (tp : List (List (List Nat))) (cx sy : Int) (c : RGB)
    (i : Nat) (p : List (List Nat)) (yy xx : Nat)
    (hi : tp[i]? = some p) (hyy : yy < 7) (hxx : xx < charWidth p)
    (hbit : rowGet p yy xx = 1)
    (h1 : 0 ≤ charX tp cx i + (xx : Int)) (h2 : charX tp cx i + (xx : Int) < 64)
    (h3 : 0 ≤ sy + (yy : Int)) (h4 : sy + (yy : Int) < 32) :
    ((charX tp cx i + (xx : Int), sy + (yy : Int), c) : Write) ∈ drawTextWrites tp cx sy c := by
  induction tp generalizing cx i with
  | nil => simp at hi
  | cons p0 rest ih =>
    rw [drawTextWrites]
    cases i with
    | zero =>
      simp only [List.getElem?_cons_zero, Option.some_inj] at hi
      subst hi
      rw [charX_zero] at h1 h2 ⊢
      exact List.mem_append_left _
        ((charWrites_mem p0 cx sy c _).mpr ⟨yy, xx, hyy, hxx, hbit, h1, h2, h3, h4, rfl⟩)
    | succ j =>
      simp only [List.getElem?_cons_succ] at hi
      rw [charX_cons_succ] at h1 h2 ⊢
      exact List.mem_append_right _ (ih (cx + (charWidth p0 : Int) + 1) j hi h1 h2)

theorem mem_of_ite_nil {α : Type} {P : Prop} [Decidable P] {l : List α} {a : α}
    (h : a ∈ (if P then l else [])) : a ∈ l := by
  split at h
  · exact h
  · simp at h

theorem animatedWrites_inBounds (s : DState) (w : Write) (hw : w ∈ animatedWrites s) :
    0 ≤ w.1 ∧ w.1 < 64 ∧ 0 ≤ w.2.1 ∧ w.2.1 < 32 := by
  unfold animatedWrites at hw
  dsimp only at hw
  split at hw
  · rcases List.mem_append.mp hw with hw' | hw4
    · rcases List.mem_append.mp hw' with hw'' | hw3
      · rcases List.mem_append.mp hw'' with hw1 | hw2
        · exact (drawTrainWrites_span _ _ w (mem_of_ite_nil hw1)).1
        · exact (drawTextWrites_span _ _ _ _ w (mem_of_ite_nil hw2)).1
      · exact (drawTrainWrites_span _ _ w (mem_of_ite_nil hw3)).1
    · exact (drawTextWrites_span _ _ _ _ w (mem_of_ite_nil hw4)).1
  · rcases List.mem_append.mp hw with hw1 | hw2
    · exact (drawTrainWrites_span _ _ w (mem_of_ite_nil hw1)).1
    · exact (drawTextWrites_span _ _ _ _ w (mem_of_ite_nil hw2)).1

/-- C9: the drawing routines are panel-safe and cull nothing visible.  Every
pixel write of `draw_train_image` and `draw_text_pixels`, at any (also
off-screen) position, lies inside the 64×32 panel; conversely every lit
sprite/glyph pixel whose translated position is on the panel is written, so a
partially visible sprite or text still renders all its in-bounds pixels; the
visibility gates of `draw_animated_train_update` only skip calls whose write
set is empty (sprite fully off screen left or right), and every write of an
animated frame is in bounds. -/
theorem C9_panel_safe_drawing :
    (∀ (x y : Int) (w : Write), w ∈ drawTrainWrites x y →
      0 ≤ w.1 ∧ w.1 < 64 ∧ 0 ≤ w.2.1 ∧ w.2.1 < 32) ∧
    (∀ (tp : List (List (List Nat))) (cx sy : Int) (c : RGB) (w : Write),
      w ∈ drawTextWrites tp cx sy c →
      0 ≤ w.1 ∧ w.1 < 64 ∧ 0 ≤ w.2.1 ∧ w.2.1 < 32) ∧
    (∀ (x y : Int) (row col : Nat), row < 8 → col < 16 → trainVal row col ≠ 0 →
      0 ≤ x + (col : Int) → x + (col : Int) < 64 →
      0 ≤ y + (row : Int) → y + (row : Int) < 32 →
      ((x + (col : Int), y + (row : Int), trainColor (trainVal row col)) : Write) ∈
        drawTrainWrites x y) ∧
    (∀ (tp : List (List (List Nat))) (cx sy : Int) (c : RGB) (i : Nat)
      (p : List (List Nat)) (yy xx : Nat),
      tp[i]? = some p → yy < 7 → xx < charWidth p → rowGet p yy xx = 1 →
      0 ≤ charX tp cx i + (xx : Int) → charX tp cx i + (xx : Int) < 64 →
      0 ≤ sy + (yy : Int) → sy + (yy : Int) < 32 →
      ((charX tp cx i + (xx : Int), sy + (yy : Int), c) : Write) ∈
        drawTextWrites tp cx sy c) ∧
    (∀ x y : Int, x ≤ -20 → drawTrainWrites x y = []) ∧
    (∀ x y : Int, 64 ≤ x → drawTrainWrites x y = []) ∧
    (∀ (tp : List (List (List Nat))) (cx sy : Int) (c : RGB),
      cx + (get_text_width tp : Int) + 5 ≤ 0 → drawTextWrites tp cx sy c = []) ∧
    (∀ (tp : List (List (List Nat))) (cx sy : Int) (c : RGB),
      64 ≤ cx → drawTextWrites tp cx sy c = []) ∧
    (∀ (s : DState) (w : Write), w ∈ animatedWrites s →
      0 ≤ w.1 ∧ w.1 < 64 ∧ 0 ≤ w.2.1 ∧ w.2.1 < 32) := by
  refine ⟨?_, ?_, ?_, ?_, ?_, ?_, ?_, ?_, ?_⟩
  · intro x y w hw
    exact (drawTrainWrites_span x y w hw).1
  · intro tp cx sy c w hw
    exact (drawTextWrites_span tp cx sy c w hw).1
  · intro x y row col hrow hcol hv h1 h2 h3 h4
    exact (drawTrainWrites_mem x y _).mpr ⟨row, col, hrow, hcol, hv, h1, h2, h3, h4, rfl⟩
  · intro tp cx sy c i p yy xx hi hyy hxx hbit h1 h2 h3 h4
    exact drawTextWrites_complete tp cx sy c i p yy xx hi hyy hxx hbit h1 h2 h3 h4
  · exact drawTrainWrites_off_left
  · exact drawTrainWrites_off_right
  · exact drawTextWrites_off_left
  · exact drawTextWrites_off_right
  · exact animatedWrites_inBounds

/-- Witness for C9: a partially relevant concrete pixel of the train sprite
at the parked position is written, and a train drawn 30 px off screen left
writes nothing. -/
theorem C9_panel_safe_drawing_witness :
    (((1 : Int) + (1 : Nat), (12 : Int) + (1 : Nat),
        trainColor (trainVal 1 1)) : Write) ∈ drawTrainWrites 1 12 ∧
    drawTrainWrites (-30) 12 = [] := by
  constructor
  · exact C9_panel_safe_drawing.2.2.1 1 12 1 1 (by decide) (by decide) (by decide)
      (by decide) (by decide) (by decide) (by decide)
  · exact C9_panel_safe_drawing.2.2.2.2.1 (-30) 12 (by decide)
